import Mathlib

/-!
Shallow embedding of the `sack` crate: a lock-free multi-producer
append-and-drain collection (`Sack<T>` in `src/lib.rs`) and the waker
fan-out set built on it (`WakerSet` in `src/waker.rs`).

Modelling choices:
* A `*mut Entry<T>` pointer value is modelled by the inductive `EntryPtr`:
  either the null pointer or a pointer to an `Entry { item, next }`.
  A chain reachable from a pointer is acyclic and null-terminated by
  construction, matching the stack's invariant.
* Each shared-slot operation of the source is a single atomic instruction
  (`load`, `compare_exchange_weak`, `swap` on the `AtomicPtr` head).
  Sequential operations are modelled by explicit state passing; concurrent
  executions are modelled by interleavings of the atomic linearization
  points (`AtomicOp` below): the successful compare-exchange of `add`
  pushes one entry onto the then-current head, and the swap of `drain`
  detaches the whole chain and clears the head.
* `Box::from_raw` / `Box::leak` only convert between ownership views of the
  same pointer, so they are the identity in the model.
-/

/-- A `*mut Entry<T>` pointer value: either null, or a pointer to an
`Entry<T> { item: T, next: *mut Entry<T> }` (source `src/lib.rs`,
`struct Entry`). The chain reachable from the pointer is finite, acyclic
and null-terminated. -/
inductive EntryPtr (T : Type) where
  | null : EntryPtr T
  | entry (item : T) (next : EntryPtr T) : EntryPtr T
deriving DecidableEq, Repr

namespace EntryPtr

/-- The items stored in the chain reachable from this pointer, head first. -/
def items {T : Type} : EntryPtr T → List T
  | .null => []
  | .entry item next => item :: next.items

/-- `ptr.is_null()` (source: `core::ptr::is_null`). -/
def is_null {T : Type} : EntryPtr T → Bool
  | .null => true
  | .entry _ _ => false

end EntryPtr

/-- The lock-free sack (source `src/lib.rs`, `pub struct Sack<T>`): a single
atomic head pointer to the most recently inserted entry. -/
structure Sack (T : Type) where
  head : EntryPtr T
deriving DecidableEq, Repr

/-- The draining iterator (source `src/lib.rs`,
`pub struct Drain<T>(Option<Box<Entry<T>>>)`): `none` is modelled by the
null pointer, `Some(box)` by the entry pointer itself. -/
structure Drain (T : Type) where
  head : EntryPtr T
deriving DecidableEq, Repr

namespace Drain

/-- `Drain::new(ptr)` (source `src/lib.rs` lines 152–159): a null pointer
becomes the `None` state, otherwise the box takes ownership of the chain. -/
def new {T : Type} (ptr : EntryPtr T) : Drain T := ⟨ptr⟩

/-- `Drain::next` (source `src/lib.rs` lines 164–168):
`self.0.take()?` returns `None` on the exhausted iterator and leaves it
exhausted; otherwise the iterator advances to `entry.next` and yields
`entry.item`. Returns the yielded item and the updated iterator state. -/
def next {T : Type} : Drain T → Option T × Drain T
  | ⟨.null⟩ => (none, ⟨.null⟩)
  | ⟨.entry item nxt⟩ => (some item, Drain.new nxt)

/-- All items yielded by repeatedly calling `next` until it returns `None`,
in yield order. -/
def collect {T : Type} (d : Drain T) : List T := d.head.items

/-- One iteration of the `while let` loop in `impl Drop for Drain`
(source `src/lib.rs` lines 171–175): if the state is `None` the loop
exits (`none`); otherwise the current entry is released and the state
advances to `entry.next`. -/
def dropStep {T : Type} : Drain T → Option (Drain T)
  | ⟨.null⟩ => none
  | ⟨.entry _ nxt⟩ => some (Drain.new nxt)

/-- The entries released by running the `Drop` loop to completion starting
from a given chain pointer, in release order (one list element per loop
iteration). -/
def dropLoop {T : Type} : EntryPtr T → List T
  | .null => []
  | .entry item nxt => item :: dropLoop nxt

/-- The entries released by running the `Drop` loop to completion, in
release order (one list element per loop iteration). -/
def dropTrace {T : Type} (d : Drain T) : List T := dropLoop d.head

/-- Running `n` iterations of the `Drop` loop (stopping early if the
iterator is already exhausted). -/
def iterateDrop {T : Type} : Nat → Drain T → Drain T
  | 0, d => d
  | n + 1, d =>
    match dropStep d with
    | none => d
    | some d' => iterateDrop n d'

end Drain

namespace Sack

/-- `Sack::new` (source `src/lib.rs` lines 100–104): head is the null
pointer. -/
def new {T : Type} : Sack T := ⟨.null⟩

/-- `Sack::add` (source `src/lib.rs` lines 109–127), sequential view: a new
entry is allocated whose `next` is the current head, and the successful
compare-exchange installs it as the new head. -/
def add {T : Type} (s : Sack T) (item : T) : Sack T := ⟨.entry item s.head⟩

/-- `Sack::drain` (source `src/lib.rs` lines 132–135): atomically swap the
head with null; the prior chain becomes a new draining iterator. Returns
the iterator and the updated sack. -/
def drain {T : Type} (s : Sack T) : Drain T × Sack T :=
  (Drain.new s.head, ⟨.null⟩)

/-- `Sack::is_empty` (source `src/lib.rs` lines 140–142): a single atomic
load of the head, tested for null. -/
def is_empty {T : Type} (s : Sack T) : Bool := s.head.is_null

/-- A sequence of `add` calls, first element inserted first. -/
def addAll {T : Type} (s : Sack T) (l : List T) : Sack T := l.foldl add s

end Sack

/-- One atomic linearization point on the sack's head slot: the successful
`compare_exchange_weak` inside `Sack::add` (which pushes exactly one entry
onto the then-current head; failed attempts do not change the slot), or the
`swap` inside `Sack::drain` (which detaches the whole visible chain and
clears the slot). A concurrent execution of any number of producer and
drainer threads is an interleaving, i.e. a list of these operations. -/
inductive AtomicOp (T : Type) where
  | addOp (item : T) : AtomicOp T
  | drainOp : AtomicOp T

/-- Global state of a concurrent execution: the shared sack, plus every
chain detached so far (each exclusively owned by the drain that took it,
most recent first). -/
structure ConcState (T : Type) where
  sack : Sack T
  drained : List (Drain T)

/-- Effect of one atomic operation on the global state. -/
def AtomicOp.apply {T : Type} (s : ConcState T) : AtomicOp T → ConcState T
  | .addOp item => ⟨s.sack.add item, s.drained⟩
  | .drainOp => ⟨(s.sack.drain).2, (s.sack.drain).1 :: s.drained⟩

/-- Run an interleaving of atomic operations from the empty sack. -/
def runOps {T : Type} (ops : List (AtomicOp T)) : ConcState T :=
  ops.foldl AtomicOp.apply ⟨Sack.new, []⟩

/-- The items inserted by an interleaving, in linearization order. -/
def opsAdded {T : Type} (ops : List (AtomicOp T)) : List T :=
  (ops.map fun op => match op with | .addOp item => [item] | .drainOp => []).flatten

/-- The multiset of items held somewhere in the global state: still in the
sack, or in some detached chain. -/
def ConcState.heldItems {T : Type} (s : ConcState T) : Multiset T :=
  (s.sack.head.items : Multiset T) +
    (s.drained.map fun d => (d.head.items : Multiset T)).sum

/-- Number of remaining elements counted by `Iterator::count`, i.e. by
calling `next` repeatedly until exhaustion (used by `WakerSet::clear`). -/
def Drain.countLoop {T : Type} : EntryPtr T → Nat
  | .null => 0
  | .entry _ nxt => Drain.countLoop nxt + 1

/-- `self.0.drain().count()` applied to a draining iterator. -/
def Drain.count {T : Type} (d : Drain T) : Nat := Drain.countLoop d.head

/-- The waker set (source `src/waker.rs`,
`pub struct WakerSet(Sack<Waker>)`). `W` is the abstract type of waker
handles; a handle's only operation is `wake()`, whose invocations are
recorded in the traces returned by the operations below. -/
structure WakerSet (W : Type) where
  sack : Sack W
deriving DecidableEq, Repr

namespace WakerSet

/-- `WakerSet::new` (source `src/waker.rs` lines 15–17). -/
def new {W : Type} : WakerSet W := ⟨Sack.new⟩

/-- `WakerSet::add` (source `src/waker.rs` lines 20–22): delegates to
`Sack::add`. -/
def add {W : Type} (s : WakerSet W) (w : W) : WakerSet W := ⟨s.sack.add w⟩

/-- `WakerSet::add_by_ref` (source `src/waker.rs` lines 25–27):
`waker.clone()` yields a handle waking the same task, modelled as the same
value. -/
def add_by_ref {W : Type} (s : WakerSet W) (w : W) : WakerSet W := ⟨s.sack.add w⟩

/-- The `for waker in self.0.drain() { waker.wake(); count += 1; }` loop of
`WakerSet::wake_all` (source `src/waker.rs` lines 33–37): walks the drained
chain, appending each `wake()` call to the trace and incrementing the
count. -/
def wakeAllLoop {W : Type} : EntryPtr W → List W → Nat → List W × Nat
  | .null, woken, count => (woken, count)
  | .entry w nxt, woken, count => wakeAllLoop nxt (woken ++ [w]) (count + 1)

/-- `WakerSet::wake_all` (source `src/waker.rs` lines 32–39): drains the
underlying sack and wakes every drained waker. Returns the updated set, the
trace of `wake()` calls in call order, and the count the function returns. -/
def wake_all {W : Type} (s : WakerSet W) : WakerSet W × List W × Nat :=
  (⟨(s.sack.drain).2⟩, wakeAllLoop ((s.sack.drain).1).head [] 0)

/-- `WakerSet::clear` (source `src/waker.rs` lines 44–46):
`self.0.drain().count()`. No `wake()` call occurs in the body, so the trace
of `wake()` calls is empty. Returns the updated set, the (empty) wake
trace, and the count it returns. -/
def clear {W : Type} (s : WakerSet W) : WakerSet W × List W × Nat :=
  (⟨(s.sack.drain).2⟩, [], Drain.count (s.sack.drain).1)

/-- `WakerSet::is_empty` (source `src/waker.rs` lines 49–51): delegates to
`Sack::is_empty`. -/
def is_empty {W : Type} (s : WakerSet W) : Bool := s.sack.is_empty

/-- `impl Drop for WakerSet` (source `src/waker.rs` lines 54–58): the
destructor body is `self.wake_all();`. Same observable result type as
`wake_all`. -/
def drop {W : Type} (s : WakerSet W) : WakerSet W × List W × Nat := s.wake_all

/-- `Wake::wake` for `WakerSet` (source `src/waker.rs` lines 61–63): the
body is `self.wake_all();`. -/
def wake {W : Type} (s : WakerSet W) : WakerSet W × List W × Nat := s.wake_all

/-- `Wake::wake_by_ref` for `WakerSet` (source `src/waker.rs` lines 65–67):
the body is `self.wake_all();`. -/
def wake_by_ref {W : Type} (s : WakerSet W) : WakerSet W × List W × Nat := s.wake_all

end WakerSet

-- Basic sanity checks of the embedding on concrete inputs.
example : (((Sack.new.add 1).add 2).add 3 : Sack Nat).head.items = [3, 2, 1] := by
  decide

example : Drain.collect ((((Sack.new.add 1).add 2).add 3 : Sack Nat).drain).1
    = [3, 2, 1] := by decide

/-! ### Helper lemmas -/

theorem Sack.addAll_items {T : Type} (l : List T) (s : Sack T) :
    (Sack.addAll s l).head.items = l.reverse ++ s.head.items := by
  induction l generalizing s with
  | nil => simp [Sack.addAll]
  | cons x xs ih =>
    show (Sack.addAll (s.add x) xs).head.items = _
    rw [ih]
    simp [Sack.add, EntryPtr.items]

theorem WakerSet.wakeAllLoop_spec {W : Type} (p : EntryPtr W) (woken : List W)
    (count : Nat) :
    WakerSet.wakeAllLoop p woken count = (woken ++ p.items, count + p.items.length) := by
  induction p generalizing woken count with
  | null => simp [WakerSet.wakeAllLoop, EntryPtr.items]
  | entry w nxt ih =>
    rw [WakerSet.wakeAllLoop, ih]
    refine Prod.ext ?_ ?_
    · simp [EntryPtr.items]
    · simp [EntryPtr.items]; omega

theorem Drain.countLoop_spec {T : Type} (p : EntryPtr T) :
    Drain.countLoop p = p.items.length := by
  induction p with
  | null => rfl
  | entry x nxt ih => simp [Drain.countLoop, EntryPtr.items, ih]

theorem AtomicOp.foldl_heldItems {T : Type} (ops : List (AtomicOp T))
    (s : ConcState T) :
    (ops.foldl AtomicOp.apply s).heldItems = s.heldItems + (opsAdded ops : Multiset T) := by
  induction ops generalizing s with
  | nil => simp [opsAdded]
  | cons op rest ih =>
    rw [List.foldl_cons, ih]
    cases op with
    | addOp x =>
      simp only [AtomicOp.apply, ConcState.heldItems, Sack.add, EntryPtr.items,
        opsAdded, List.map_cons, List.flatten_cons, List.singleton_append]
      rw [← Multiset.cons_coe, ← Multiset.cons_coe]
      simp only [Multiset.cons_add, Multiset.add_cons]
    | drainOp =>
      simp only [AtomicOp.apply, ConcState.heldItems, Sack.drain, Drain.new,
        EntryPtr.items, opsAdded, List.map_cons, List.flatten_cons,
        List.nil_append, List.sum_cons, Multiset.coe_nil]
      rw [add_comm ((s.sack.head.items : Multiset T)) _]
      simp [add_assoc]

theorem Drain.dropLoop_eq_items {T : Type} (p : EntryPtr T) :
    Drain.dropLoop p = p.items := by
  induction p with
  | null => rfl
  | entry x nxt ih => simp [Drain.dropLoop, EntryPtr.items, ih]

theorem Drain.iterateDrop_items_length {T : Type} (p : EntryPtr T) :
    Drain.iterateDrop p.items.length (Drain.new p) = Drain.new EntryPtr.null := by
  induction p with
  | null => rfl
  | entry x nxt ih =>
    show Drain.iterateDrop (nxt.items.length + 1) (Drain.new (.entry x nxt)) = _
    rw [Drain.iterateDrop]
    exact ih

theorem Drain.iterateDrop_lt_ne_null {T : Type} (p : EntryPtr T) (n : Nat)
    (h : n < p.items.length) :
    Drain.iterateDrop n (Drain.new p) ≠ Drain.new EntryPtr.null := by
  induction p generalizing n with
  | null => simp [EntryPtr.items] at h
  | entry x nxt ih =>
    cases n with
    | zero => simp [Drain.iterateDrop, Drain.new]
    | succ m =>
      have hm : m < nxt.items.length := by
        simpa [EntryPtr.items, Nat.succ_lt_succ_iff] using h
      rw [Drain.iterateDrop]
      exact ih m hm

/-! ### Claims -/

/-- C1: For any sequence of inserts (`add` calls) followed by one full
drain, the multiset of items yielded by the draining iterator equals
exactly the multiset of items inserted — no item is lost and no item is
duplicated. Quantifying over the insertion list covers every linearization
order of concurrent producers, since each producer's successful
compare-exchange pushes exactly one item onto the then-current head. -/
theorem c1_drain_multiset_eq_inserted {T : Type} (l : List T) :
    (Drain.collect ((Sack.addAll Sack.new l).drain).1 : Multiset T) = (l : Multiset T) := by
  simp [Drain.collect, Sack.drain, Drain.new, Sack.addAll_items, Sack.new,
    EntryPtr.items, Multiset.coe_reverse]

/-- C2: The draining iterator yields items in LIFO order relative to the
drained snapshot: inserting a list of items (first element first) with no
intervening drain and then draining yields exactly the reversed insertion
order; in particular `add 1; add 2; add 3; drain` yields `[3, 2, 1]`. -/
theorem c2_drain_lifo {T : Type} (l : List T) :
    Drain.collect ((Sack.addAll Sack.new l).drain).1 = l.reverse ∧
    Drain.collect ((((Sack.new.add 1).add 2).add 3 : Sack Nat).drain).1 = [3, 2, 1] := by
  constructor
  · simp [Drain.collect, Sack.drain, Drain.new, Sack.addAll_items, Sack.new,
      EntryPtr.items]
  · rfl

/-- C3: `is_empty` returns `true` immediately after construction and after
a drain (which observed the entire chain and left the head null), and
`false` after at least one insert with no intervening drain (the head then
points at the freshly inserted entry). -/
theorem c3_is_empty_observations {T : Type} (s : Sack T) (x : T) :
    Sack.is_empty (Sack.new : Sack T) = true ∧
    Sack.is_empty ((s.drain).2) = true ∧
    Sack.is_empty (s.add x) = false :=
  ⟨rfl, rfl, rfl⟩

/-- C4: `wake_all` on a set holding `k` handles wakes exactly the drained
handles in drain order (so exactly `k` `wake()` calls), returns `k`, and
leaves the set empty. The modelled handles do not re-insert themselves. -/
theorem c4_wake_all_spec {W : Type} (s : WakerSet W) :
    (s.wake_all).2.1 = Drain.collect (s.sack.drain).1 ∧
    (s.wake_all).2.1.length = s.sack.head.items.length ∧
    (s.wake_all).2.2 = s.sack.head.items.length ∧
    (s.wake_all).1.is_empty = true := by
  refine ⟨?_, ?_, ?_, rfl⟩ <;>
    simp [WakerSet.wake_all, WakerSet.wakeAllLoop_spec, Sack.drain, Drain.new,
      Drain.collect]

/-- C5: `clear` on a set holding `k` handles removes all of them without
any `wake()` call (the wake trace is empty, so the observed
triggered-count is 0), returns `k`, and leaves the set empty. -/
theorem c5_clear_spec {W : Type} (s : WakerSet W) :
    (s.clear).2.1 = [] ∧
    (s.clear).2.2 = s.sack.head.items.length ∧
    (s.clear).1.is_empty = true := by
  refine ⟨rfl, ?_, rfl⟩
  simp [WakerSet.clear, Sack.drain, Drain.new, Drain.count, Drain.countLoop_spec]

/-- C6: the destructor of `WakerSet` performs exactly a `wake_all` call:
its observable effect equals `wake_all`'s, so every handle still pending
at destruction is woken (the wake trace is the full list of pending
handles, one `wake()` call per handle). -/
theorem c6_drop_triggers_all {W : Type} (s : WakerSet W) :
    WakerSet.drop s = s.wake_all ∧
    (WakerSet.drop s).2.1 = s.sack.head.items ∧
    (WakerSet.drop s).2.2 = s.sack.head.items.length := by
  refine ⟨rfl, ?_, ?_⟩ <;>
    simp [WakerSet.drop, WakerSet.wake_all, WakerSet.wakeAllLoop_spec,
      Sack.drain, Drain.new]

/-- C7: a `WakerSet` itself satisfies the one-operation wake capability,
and its trigger operation equals `wake_all`: both `Wake::wake` and
`Wake::wake_by_ref` produce exactly the same state, wake trace and count
as `wake_all`, draining the same handles. -/
theorem c7_wake_eq_wake_all {W : Type} (s : WakerSet W) :
    WakerSet.wake s = s.wake_all ∧
    WakerSet.wake_by_ref s = s.wake_all ∧
    (WakerSet.wake s).2.1 = Drain.collect (s.sack.drain).1 := by
  refine ⟨rfl, rfl, ?_⟩
  simp [WakerSet.wake, WakerSet.wake_all, WakerSet.wakeAllLoop_spec,
    Sack.drain, Drain.new, Drain.collect]

/-- C8: discarding a draining iterator releases every remaining entry by
the explicit `while let` loop of `impl Drop for Drain`: the loop's release
trace is exactly the remaining entries (so its iteration count equals
their number), iterating the loop body that many times reaches the
exhausted state for every finite chain, and no smaller number of
iterations does. -/
theorem c8_drop_iterative {T : Type} (d : Drain T) :
    Drain.dropTrace d = d.head.items ∧
    (Drain.dropTrace d).length = d.head.items.length ∧
    Drain.iterateDrop d.head.items.length d = Drain.new EntryPtr.null ∧
    ∀ n, n < d.head.items.length → Drain.iterateDrop n d ≠ Drain.new EntryPtr.null := by
  obtain ⟨p⟩ := d
  exact ⟨Drain.dropLoop_eq_items p,
    by rw [Drain.dropTrace, Drain.dropLoop_eq_items],
    Drain.iterateDrop_items_length p,
    fun n h => Drain.iterateDrop_lt_ne_null p n h⟩

/-- Witness for C8 at the one-entry chain `[7]`: zero loop iterations do
not reach the exhausted state. -/
theorem c8_drop_iterative_witness :
    (0 : Nat) < ((Drain.new (EntryPtr.entry 7 EntryPtr.null) : Drain Nat).head.items).length ∧
    Drain.iterateDrop 0 (Drain.new (EntryPtr.entry 7 EntryPtr.null) : Drain Nat) ≠
      Drain.new EntryPtr.null :=
  ⟨by decide,
    (c8_drop_iterative (Drain.new (EntryPtr.entry 7 EntryPtr.null) : Drain Nat)).2.2.2
      0 (by decide)⟩

/-- C9: for every interleaving of the atomic linearization points of
concurrent `add`s and `drain`s, the items held in the sack plus the items
in all detached chains form exactly the multiset of items ever inserted:
concurrent drains detach disjoint sub-chains and, together with the chain
left in the sack, neither lose nor duplicate any inserted item. -/
theorem c9_concurrent_conservation {T : Type} (ops : List (AtomicOp T)) :
    (runOps ops).heldItems = (opsAdded ops : Multiset T) := by
  rw [runOps, AtomicOp.foldl_heldItems]
  simp [ConcState.heldItems, Sack.new, EntryPtr.items]

/-- C10: draining an empty sack yields an iterator that produces no items,
and the draining iterator is fused: once `next` has returned `none`, every
subsequent `next` call on the resulting state also returns `none`. -/
theorem c10_empty_drain_and_fused {T : Type} (d d' : Drain T) :
    Drain.collect ((Sack.new : Sack T).drain).1 = [] ∧
    (Drain.next d = (none, d') → Drain.next d' = (none, d')) := by
  refine ⟨rfl, fun h => ?_⟩
  obtain ⟨p⟩ := d
  cases p with
  | null =>
    rw [Drain.next] at h
    injection h with h1 h2
    rw [← h2]
    rfl
  | entry x nxt =>
    rw [Drain.next] at h
    injection h with h1 h2
    exact absurd h1 (by simp)

/-- Witness for C10 at the exhausted iterator over `Nat`: `next` returned
`none` there, and returns `none` again on the resulting state. -/
theorem c10_empty_drain_and_fused_witness :
    Drain.next (Drain.new (EntryPtr.null : EntryPtr Nat)) =
      (none, Drain.new (EntryPtr.null : EntryPtr Nat)) :=
  (c10_empty_drain_and_fused (Drain.new EntryPtr.null)
    (Drain.new (EntryPtr.null : EntryPtr Nat))).2 rfl
